import Mathlib

/-!
# Verification of the career-dataset regression analyzer (`src/main.rs`)

Shallow embedding of the Rust program into Lean 4.

Modelling conventions:

* Rust `f64` arithmetic is idealized as exact rational arithmetic (`ℚ`).
  A division whose denominator is `0` produces a non-finite `f64` value
  (`NaN` or `±inf`); the embedding signals this with `Option ℚ`
  (`none` = non-finite outcome of the division).
* `correlation` (main.rs line 97) is `r_numerator / (r_denomx * r_denomy).sqrt()`.
  Its exact value is represented by the pair `SqrtQuot` of the numerator and the
  radicand, denoting `num / Real.sqrt radicand`; `radicand = 0` encodes the
  division by `sqrt 0 = 0` (a NaN, since the numerator is then also `0`).
* The CSV reader (the external `csv` crate, default configuration: first record
  is the header, `flexible` off) is modelled on the list of data rows, each a
  `List String`; a data row whose arity differs from the header's is a read
  error which line 20's `?` propagates.  Indexing a record out of bounds
  (`record[k]`, lines 23-37) panics; both failure modes are `LoadFailure`.
* `str::parse::<f64>` is external to the program; the loader is parameterized
  by an arbitrary numeric parser `pn : String → Option ℚ`.
-/

namespace CareerStats

/-- Models Rust `str::trim` (used at lines 23 and 32-37): strip leading and
trailing whitespace.  Written structurally over the character list so that
concrete instances reduce inside `decide`. -/
def strTrim (s : String) : String :=
  ⟨((s.data.dropWhile Char.isWhitespace).reverse.dropWhile Char.isWhitespace).reverse⟩

/-- `struct Individual` (main.rs lines 4-13). -/
structure Individual where
  id : ℕ
  age : ℚ
  years_of_experience : ℚ
  job_satisfaction : ℚ
  professional_network_size : ℚ
  family_influence : ℚ
  salary : ℚ
deriving DecidableEq

/-- Ordinal encoding of the Family Influence label (main.rs lines 23-28). -/
def familyInfluenceCode (s : String) : Except String ℚ :=
  match strTrim s with
  | "Low" => .ok 1
  | "Medium" => .ok 2
  | "High" => .ok 3
  | _ => .error "Invalid Family Influence value"

/-- `record[k]` field access; `none` is the out-of-bounds panic of the
`Index` impl on a CSV record. -/
def field (row : List String) (k : ℕ) : Option String := row.get? k

/-- Parsing of one CSV record into an `Individual` (main.rs lines 22-60).
Outer `none`: an index panic (row lacks one of the accessed columns
2, 4, 7, 10, 14, 19).  `some none`: some field failed to parse, the row is
dropped with a warning (lines 57-59).  `some (some ind)`: the parsed record,
carrying the enumerate index `i` as its `id` (line 48). -/
def parseRow (pn : String → Option ℚ) (i : ℕ) (row : List String) :
    Option (Option Individual) :=
  match field row 14, field row 2, field row 4, field row 7,
        field row 19, field row 10 with
  | some f14, some f2, some f4, some f7, some f19, some f10 =>
    some (match familyInfluenceCode f14, pn (strTrim f2), pn (strTrim f4),
                pn (strTrim f7), pn (strTrim f19), pn (strTrim f10) with
      | .ok fi, some age, some yoe, some js, some pns, some sal =>
        some ⟨i, age, yoe, js, pns, fi, sal⟩
      | _, _, _, _, _, _ => none)
  | _, _, _, _, _, _ => none

/-- The diagnostic of main.rs line 58. -/
def warnMsg (i : ℕ) : String := s!"Warning: Could not parse data for record {i}"

/-- The two ways loading can fail: a CSV read error propagated by `?`
(line 20), or a panic from out-of-bounds record indexing. -/
inductive LoadFailure where
  | csvError (msg : String)
  | panic (msg : String)
deriving DecidableEq

/-- The loop of main.rs lines 19-61, at enumerate index `i`.  On success it
returns the parsed individuals together with the emitted warnings, in order. -/
def readRows (pn : String → Option ℚ) (headerLen : ℕ) (i : ℕ) :
    List (List String) → Except LoadFailure (List Individual × List String)
  | [] => .ok ([], [])
  | row :: rest =>
    if row.length ≠ headerLen then
      .error (.csvError "CSV error: record has a different number of fields than the header")
    else
      match parseRow pn i row with
      | none => .error (.panic "index out of bounds: record field access")
      | some none =>
        match readRows pn headerLen (i + 1) rest with
        | .ok (inds, warns) => .ok (inds, warnMsg i :: warns)
        | .error e => .error e
      | some (some ind) =>
        match readRows pn headerLen (i + 1) rest with
        | .ok (inds, warns) => .ok (ind :: inds, warns)
        | .error e => .error e

/-- `read_dataset` (main.rs lines 15-63), applied to the data rows (the header
row is consumed by the `csv::Reader`; `headerLen` is its arity). -/
def read_dataset (pn : String → Option ℚ) (headerLen : ℕ)
    (rows : List (List String)) : Except LoadFailure (List Individual × List String) :=
  readRows pn headerLen 0 rows

/-- Arithmetic mean (main.rs lines 69-70).  (For the empty list Lean's `x / 0 = 0`
convention gives `0` where f64 gives NaN; every use below is guarded by `n ≥ 1`.) -/
def mean (l : List ℚ) : ℚ := l.sum / l.length

/-- `var_x` after the loop of lines 72-78 and the normalization `var_x /= n`
(line 80): population variance of X. -/
def var_x (x : List ℚ) : ℚ := ((x.map fun a => (a - mean x) ^ 2).sum) / x.length

/-- `cov_xy` after the loop of lines 72-78: the *unnormalized* sum
`Σ (x_i - mean_x) * (y_i - mean_y)`.  Unlike `var_x` it is never divided
by `n`. -/
def cov_xy (x y : List ℚ) : ℚ :=
  ((x.zip y).map fun p => (p.1 - mean x) * (p.2 - mean y)).sum

/-- The slope's divisor `var_x * (n - 1.0)` (line 82). -/
def slopeDen (x : List ℚ) : ℚ := var_x x * ((x.length : ℚ) - 1)

/-- `r_numerator` accumulated by the loop of lines 89-95. -/
def r_numerator (x y : List ℚ) : ℚ :=
  ((x.zip y).map fun p => (p.1 - mean x) * (p.2 - mean y)).sum

/-- `r_denomx` accumulated by the loop of lines 89-95 (reads only `x`). -/
def r_denomx (x : List ℚ) : ℚ := (x.map fun a => (a - mean x) ^ 2).sum

/-- `r_denomy` accumulated by the loop of lines 89-95 (reads only `y`). -/
def r_denomy (y : List ℚ) : ℚ := (y.map fun b => (b - mean y) ^ 2).sum

/-- Exact representation of `num / Real.sqrt radicand` — the shape of
`correlation` at line 97.  `radicand = 0` encodes the division by
`sqrt 0 = 0`, i.e. the NaN outcome. -/
structure SqrtQuot where
  num : ℚ
  radicand : ℚ
deriving DecidableEq

/-- The represented correlation is a well-defined (finite) real number lying in
`[-1, 1]`: the radicand is positive and `num² ≤ radicand`, i.e.
`|num / sqrt radicand| ≤ 1`. -/
def SqrtQuot.withinUnit (c : SqrtQuot) : Prop :=
  0 < c.radicand ∧ c.num ^ 2 ≤ c.radicand

instance (c : SqrtQuot) : Decidable c.withinUnit := by
  unfold SqrtQuot.withinUnit; infer_instance

/-- The tuple returned by `calculate_linear_regression` (line 100). -/
structure RegressionResult where
  slope : Option ℚ
  intercept : Option ℚ
  correlation : SqrtQuot
  r_squared : Option ℚ
deriving DecidableEq

/-- Body of `calculate_linear_regression` (main.rs lines 67-100), after the
length assertion.  `slope`/`intercept` are `none` exactly when the divisor
`var_x * (n - 1)` is zero (line 82's division then yields a non-finite f64);
`r_squared = correlation²` is `none` exactly when `r_denomx * r_denomy = 0`
(line 97's division by `sqrt 0`). -/
def regressionCore (x y : List ℚ) : RegressionResult :=
  { slope := if slopeDen x = 0 then none else some (cov_xy x y / slopeDen x)
    intercept := if slopeDen x = 0 then none
      else some (mean y - cov_xy x y / slopeDen x * mean x)
    correlation := ⟨r_numerator x y, r_denomx x * r_denomy y⟩
    r_squared := if r_denomx x * r_denomy y = 0 then none
      else some (r_numerator x y ^ 2 / (r_denomx x * r_denomy y)) }

/-- `calculate_linear_regression` (main.rs lines 65-101); `none` models the
`assert_eq!` panic on mismatched lengths (line 66). -/
def calculate_linear_regression (x y : List ℚ) : Option RegressionResult :=
  if x.length = y.length then some (regressionCore x y) else none

/-- The strength classification of main.rs lines 149-155, at a plain (finite)
correlation value. -/
def classify (c : ℚ) : String :=
  if |c| < 3 / 10 then "Weak correlation"
  else if |c| < 7 / 10 then "Moderate correlation"
  else "Strong correlation"

/-- The strength classification of main.rs lines 149-155 at the exact
representation `num / sqrt radicand`: for `radicand > 0`,
`|num / sqrt radicand| < t ↔ num² < t² * radicand` (with `(3/10)² = 9/100`
and `(7/10)² = 49/100`); for `radicand = 0` the correlation is NaN, both f64
comparisons are false and the strong branch is taken — which the formulas
below reproduce, since `num = 0` whenever the radicand is `0`. -/
def strengthLabel (c : SqrtQuot) : String :=
  if c.num ^ 2 * 100 < 9 * c.radicand then "Weak correlation"
  else if c.num ^ 2 * 100 < 49 * c.radicand then "Moderate correlation"
  else "Strong correlation"

/-- One printed analysis block (main.rs lines 140-156): the regression output
and the classification derived from its correlation. -/
structure AnalysisResult where
  title : String
  result : RegressionResult
  strength : String
deriving DecidableEq

def mkAnalysis (title : String) (x y : List ℚ) : AnalysisResult :=
  { title := title
    result := regressionCore x y
    strength := strengthLabel (regressionCore x y).correlation }

def ages (inds : List Individual) : List ℚ := inds.map (·.age)

def experiences (inds : List Individual) : List ℚ := inds.map (·.years_of_experience)

def satisfactions (inds : List Individual) : List ℚ := inds.map (·.job_satisfaction)

def networks (inds : List Individual) : List ℚ := inds.map (·.professional_network_size)

def influences (inds : List Individual) : List ℚ := inds.map (·.family_influence)

def salaries (inds : List Individual) : List ℚ := inds.map (·.salary)

/-- The fixed catalog of the eight analyses (main.rs lines 104-136) driven
through the regression engine and the classifier (lines 140-156). -/
def perform_correlation_analysis (inds : List Individual) : List AnalysisResult :=
  [ mkAnalysis "Age vs Years of Experience" (ages inds) (experiences inds),
    mkAnalysis "Age vs Job Satisfaction" (ages inds) (satisfactions inds),
    mkAnalysis "Age vs Professional Network Size" (ages inds) (networks inds),
    mkAnalysis "Years of Experience vs Professional Network Size"
      (experiences inds) (networks inds),
    mkAnalysis "Professional Network Size vs Job Satisfaction"
      (networks inds) (satisfactions inds),
    mkAnalysis "Family Influence vs Salary" (influences inds) (salaries inds),
    mkAnalysis "Age vs Salary" (ages inds) (salaries inds),
    mkAnalysis "Years of Experience vs Salary" (experiences inds) (salaries inds) ]

/-- `calculate_descriptive_stats` (main.rs lines 159-166): mean, min, max.
The folds seed with `±f64::INFINITY`; `none` models a seed that was never
replaced (empty input), so for non-empty data the min/max are `some`. -/
def calculate_descriptive_stats (data : List ℚ) : ℚ × Option ℚ × Option ℚ :=
  (mean data,
   data.foldl (fun a b => some (match a with | none => b | some m => min m b)) none,
   data.foldl (fun a b => some (match a with | none => b | some m => max m b)) none)

/-- The full report assembled by `perform_correlation_analysis`
(main.rs lines 103-182): the eight analysis blocks and the four
descriptive-statistics lines (lines 168-179). -/
structure Report where
  analyses : List AnalysisResult
  age_stats : ℚ × Option ℚ × Option ℚ
  network_stats : ℚ × Option ℚ × Option ℚ
  experience_stats : ℚ × Option ℚ × Option ℚ
  job_satisfaction_stats : ℚ × Option ℚ × Option ℚ
deriving DecidableEq

def makeReport (inds : List Individual) : Report :=
  { analyses := perform_correlation_analysis inds
    age_stats := calculate_descriptive_stats (ages inds)
    network_stats := calculate_descriptive_stats (networks inds)
    experience_stats := calculate_descriptive_stats (experiences inds)
    job_satisfaction_stats := calculate_descriptive_stats (satisfactions inds) }

/-- Observable outcome of `main` (main.rs lines 184-196). -/
inductive MainOutcome where
  | panicked (msg : String)
  | loadError (msg : String)
  | emptyNotice
  | report (r : Report)
deriving DecidableEq

/-- Exit status: `loadError` is the `Err` return (error exit), a panic is an
abort; `emptyNotice` and `report` both return `Ok(())`. -/
def MainOutcome.isSuccess : MainOutcome → Bool
  | .loadError _ => false
  | .panicked _ => false
  | .emptyNotice => true
  | .report _ => true

/-- `main` (main.rs lines 184-196): load, test for emptiness (lines 188-191),
otherwise run the full analysis. -/
def main (pn : String → Option ℚ) (headerLen : ℕ)
    (rows : List (List String)) : MainOutcome :=
  match read_dataset pn headerLen rows with
  | .error (.csvError m) => .loadError m
  | .error (.panic m) => .panicked m
  | .ok (inds, _) => if inds.isEmpty then .emptyNotice else .report (makeReport inds)

/-- A list is constant: any two of its entries coincide. -/
def listConstant (l : List ℚ) : Prop := ∀ a ∈ l, ∀ b ∈ l, a = b

instance (l : List ℚ) : Decidable (listConstant l) := by
  unfold listConstant; infer_instance

/-- A concrete numeric parser used to instantiate the loader's `pn` parameter
in witnesses: accepts exactly the literal `"1"`. -/
def pnLit : String → Option ℚ := fun s => if s = "1" then some 1 else none

/-- A 20-column data row whose Family Influence column (index 14) is `fam`
and whose other fields are all `"1"`. -/
def sampleRow (fam : String) : List String :=
  List.replicate 14 "1" ++ fam :: List.replicate 5 "1"

/-- Specification of the records a non-aborting load keeps, starting at
enumerate index `i`: the successfully parsed rows in order, each carrying its
enumerate index.  (Transparent recursion used to characterize `read_dataset`.) -/
def specGoodRecords (pn : String → Option ℚ) (i : ℕ) :
    List (List String) → List Individual
  | [] => []
  | row :: rest =>
    match parseRow pn i row with
    | some (some ind) => ind :: specGoodRecords pn (i + 1) rest
    | _ => specGoodRecords pn (i + 1) rest

/-- Specification of the diagnostics a non-aborting load emits, starting at
enumerate index `i`: one warning per dropped row. -/
def specWarnings (pn : String → Option ℚ) (i : ℕ) :
    List (List String) → List String
  | [] => []
  | row :: rest =>
    match parseRow pn i row with
    | some none => warnMsg i :: specWarnings pn (i + 1) rest
    | _ => specWarnings pn (i + 1) rest

instance {e a : Type} [DecidableEq e] [DecidableEq a] : DecidableEq (Except e a) := fun x y =>
  match x, y with
  | .ok v, .ok w => if h : v = w then isTrue (by rw [h]) else isFalse (by simp [h])
  | .error v, .error w => if h : v = w then isTrue (by rw [h]) else isFalse (by simp [h])
  | .ok _, .error _ => isFalse (by simp)
  | .error _, .ok _ => isFalse (by simp)

/-! ## Arithmetic toolkit -/

lemma sum_map_add_const (l : List ℚ) (c : ℚ) :
    (l.map fun b => b + c).sum = l.sum + l.length * c := by
  induction l with
  | nil => simp
  | cons h t ih =>
    simp only [List.map_cons, List.sum_cons, List.length_cons, ih]
    push_cast
    ring

lemma mean_map_add_const (l : List ℚ) (c : ℚ) (hl : l ≠ []) :
    mean (l.map fun b => b + c) = mean l + c := by
  have hn : (l.length : ℚ) ≠ 0 := by
    have := List.length_pos.mpr hl
    positivity
  simp only [mean, sum_map_add_const, List.length_map]
  field_simp
  ring

lemma sum_map_sq_nonneg {α : Type} (l : List α) (f : α → ℚ) :
    0 ≤ (l.map fun a => f a ^ 2).sum := by
  induction l with
  | nil => simp
  | cons h t ih =>
    simp only [List.map_cons, List.sum_cons]
    exact add_nonneg (sq_nonneg _) ih

lemma sum_map_sq_eq_zero {α : Type} {l : List α} {f : α → ℚ}
    (h : (l.map fun a => f a ^ 2).sum = 0) : ∀ a ∈ l, f a = 0 := by
  induction l with
  | nil => simp
  | cons x t ih =>
    simp only [List.map_cons, List.sum_cons] at h
    have h1 : 0 ≤ (t.map fun a => f a ^ 2).sum := sum_map_sq_nonneg t f
    have h2 : f x ^ 2 = 0 := by nlinarith [sq_nonneg (f x)]
    intro a ha
    rcases List.mem_cons.mp ha with rfl | ha'
    · exact pow_eq_zero_iff two_ne_zero |>.mp h2
    · exact ih (by linarith) a ha'

lemma r_denomx_pos {x : List ℚ} (hx : ¬listConstant x) : 0 < r_denomx x := by
  rcases eq_or_lt_of_le (sum_map_sq_nonneg x fun a => a - mean x) with h | h
  · exfalso
    apply hx
    have hz := sum_map_sq_eq_zero (l := x) (f := fun a => a - mean x) h.symm
    intro a ha b hb
    have ha' : a - mean x = 0 := hz a ha
    have hb' : b - mean x = 0 := hz b hb
    have h1 : a = mean x := by linarith
    have h2 : b = mean x := by linarith
    rw [h1, h2]
  · exact h

lemma r_denomy_eq_r_denomx (l : List ℚ) : r_denomy l = r_denomx l := rfl

lemma var_x_eq (x : List ℚ) : var_x x = r_denomx x / x.length := rfl

lemma slopeDen_pos {x : List ℚ} (hn : 2 ≤ x.length) (hx : ¬listConstant x) :
    0 < slopeDen x := by
  have h1 : 0 < r_denomx x := r_denomx_pos hx
  have h2 : (0 : ℚ) < x.length := by
    have : 0 < x.length := by omega
    exact_mod_cast this
  have h3 : (0 : ℚ) < (x.length : ℚ) - 1 := by
    have : (2 : ℚ) ≤ x.length := by exact_mod_cast hn
    linarith
  have h4 : 0 < var_x x := by
    rw [var_x_eq]
    positivity
  exact mul_pos h4 h3

lemma sum_sq_comb (a b : ℚ) (l : List (ℚ × ℚ)) :
    (l.map fun p => (a * p.2 - b * p.1) ^ 2).sum
      = a ^ 2 * (l.map fun p => p.2 ^ 2).sum
        - 2 * a * b * (l.map fun p => p.1 * p.2).sum
        + b ^ 2 * (l.map fun p => p.1 ^ 2).sum := by
  induction l with
  | nil => simp
  | cons p t ih =>
    simp only [List.map_cons, List.sum_cons, ih]
    ring

lemma list_cauchy_schwarz (l : List (ℚ × ℚ)) :
    ((l.map fun p => p.1 * p.2).sum) ^ 2
      ≤ (l.map fun p => p.1 ^ 2).sum * (l.map fun p => p.2 ^ 2).sum := by
  induction l with
  | nil => simp
  | cons p t ih =>
    simp only [List.map_cons, List.sum_cons]
    have key : 0 ≤ p.1 ^ 2 * (t.map fun q => q.2 ^ 2).sum
        - 2 * p.1 * p.2 * (t.map fun q => q.1 * q.2).sum
        + p.2 ^ 2 * (t.map fun q => q.1 ^ 2).sum := by
      rw [← sum_sq_comb]
      exact sum_map_sq_nonneg t _
    nlinarith [ih]

lemma zip_map_fst_sum (f : ℚ → ℚ) : ∀ (x y : List ℚ), x.length = y.length →
    ((x.zip y).map fun p => f p.1).sum = (x.map f).sum
  | [], [], _ => by simp
  | [], _ :: _, h => by simp at h
  | _ :: _, [], h => by simp at h
  | a :: x, b :: y, h => by
    simp only [List.zip_cons_cons, List.map_cons, List.sum_cons]
    rw [zip_map_fst_sum f x y (by simpa using h)]

lemma zip_map_snd_sum (f : ℚ → ℚ) : ∀ (x y : List ℚ), x.length = y.length →
    ((x.zip y).map fun p => f p.2).sum = (y.map f).sum
  | [], [], _ => by simp
  | [], _ :: _, h => by simp at h
  | _ :: _, [], h => by simp at h
  | a :: x, b :: y, h => by
    simp only [List.zip_cons_cons, List.map_cons, List.sum_cons]
    rw [zip_map_snd_sum f x y (by simpa using h)]

lemma r_num_sq_le (x y : List ℚ) (hlen : x.length = y.length) :
    r_numerator x y ^ 2 ≤ r_denomx x * r_denomy y := by
  have cs := list_cauchy_schwarz ((x.zip y).map fun p => (p.1 - mean x, p.2 - mean y))
  simp only [List.map_map, Function.comp_def] at cs
  have e2 : ((x.zip y).map fun p => (p.1 - mean x) ^ 2).sum = r_denomx x :=
    zip_map_fst_sum (fun a => (a - mean x) ^ 2) x y hlen
  have e3 : ((x.zip y).map fun p => (p.2 - mean y) ^ 2).sum = r_denomy y :=
    zip_map_snd_sum (fun b => (b - mean y) ^ 2) x y hlen
  rw [e2, e3] at cs
  exact cs

lemma r_numerator_eq_cov_xy (x y : List ℚ) : r_numerator x y = cov_xy x y := rfl

lemma cov_xy_map_add (x y : List ℚ) (c : ℚ) (hy : y ≠ []) :
    cov_xy x (y.map fun b => b + c) = cov_xy x y := by
  unfold cov_xy
  rw [List.zip_map_right, List.map_map, mean_map_add_const y c hy]
  apply congrArg List.sum
  apply List.map_congr_left
  intro p _
  simp only [Function.comp_apply, Prod.map_fst, Prod.map_snd, id_eq]
  ring

lemma r_denomy_map_add (y : List ℚ) (c : ℚ) (hy : y ≠ []) :
    r_denomy (y.map fun b => b + c) = r_denomy y := by
  unfold r_denomy
  rw [List.map_map, mean_map_add_const y c hy]
  apply congrArg List.sum
  apply List.map_congr_left
  intro b _
  simp only [Function.comp_apply]
  ring

lemma regressionCore_singleton (a b : ℚ) :
    regressionCore [a] [b] = ⟨none, none, ⟨0, 0⟩, none⟩ := by
  simp [regressionCore, slopeDen, var_x, cov_xy, r_numerator, r_denomx, r_denomy, mean]

lemma var_x_pair : var_x [(0 : ℚ), 2] = 1 := by
  simp [var_x, mean]
  norm_num

/-! ## C1: the slope formula's covariance normalization -/

/-- Modelled from the spec (§4.2 steps 3-4), for comparison only: the
covariance *with* the `1/n` normalization the spec describes. -/
def specCovXY (x y : List ℚ) : ℚ := cov_xy x y / x.length

/-- Modelled from the spec, for comparison only: the claimed slope formula
`cov_xy / (var_x · (n − 1))` built on the 1/n-normalized covariance. -/
def specSlope (x y : List ℚ) : ℚ :=
  specCovXY x y / (var_x x * ((x.length : ℚ) - 1))

/-- C1, counterexample: for X = Y = [0,1] (n = 2, var_x = 1/4 ≠ 0) the program
returns slope 2 — line 82 divides the *raw* deviation-product sum 1/2 by
`var_x·(n−1) = 1/4` — while the claimed formula, whose numerator carries the
1/n normalization, yields 1. -/
theorem C1_counterexample :
    2 ≤ [(0 : ℚ), 1].length ∧ var_x [(0 : ℚ), 1] ≠ 0 ∧
    (regressionCore [(0 : ℚ), 1] [(0 : ℚ), 1]).slope = some 2 ∧
    specSlope [(0 : ℚ), 1] [(0 : ℚ), 1] = 1 ∧ (2 : ℚ) ≠ 1 := by
  refine ⟨by norm_num, ?_, ?_, ?_, by norm_num⟩
  · simp [var_x, mean]
    norm_num
  · simp [regressionCore, slopeDen, var_x, cov_xy, mean]
    norm_num
  · simp [specSlope, specCovXY, var_x, cov_xy, mean]
    norm_num

/-- C1 (amended): for equal-length sequences with n ≥ 2 and non-zero population
variance of X, the returned slope is `cov_xy / (var_x · (n − 1))` where
`cov_xy` is the *unnormalized* sum `Σ(x_i − mean_x)(y_i − mean_y)` — that is,
`n` times the 1/n-normalized covariance claimed by the spec, which the code
never divides by `n`. -/
theorem C1_amended (x y : List ℚ) (hlen : x.length = y.length)
    (hn : 2 ≤ x.length) (hv : var_x x ≠ 0) :
    calculate_linear_regression x y = some (regressionCore x y) ∧
    (regressionCore x y).slope
      = some (cov_xy x y / (var_x x * ((x.length : ℚ) - 1))) ∧
    cov_xy x y = (x.length : ℚ) * specCovXY x y := by
  have h3 : (0 : ℚ) < (x.length : ℚ) - 1 := by
    have : (2 : ℚ) ≤ (x.length : ℚ) := by exact_mod_cast hn
    linarith
  have hden : slopeDen x ≠ 0 := mul_ne_zero hv (ne_of_gt h3)
  have hn0 : (x.length : ℚ) ≠ 0 := by
    have : (0 : ℚ) < (x.length : ℚ) := by linarith
    exact ne_of_gt this
  refine ⟨by simp [calculate_linear_regression, hlen], ?_, ?_⟩
  · simp only [regressionCore, slopeDen] at hden ⊢
    rw [if_neg hden]
  · unfold specCovXY
    field_simp

/-- C1, witness: the amended theorem at X = Y = [0,2]. -/
theorem C1_witness :
    (([(0 : ℚ), 2].length = [(0 : ℚ), 2].length ∧ 2 ≤ [(0 : ℚ), 2].length ∧
        var_x [(0 : ℚ), 2] ≠ 0) ∧
      (regressionCore [(0 : ℚ), 2] [(0 : ℚ), 2]).slope
        = some (cov_xy [(0 : ℚ), 2] [(0 : ℚ), 2]
            / (var_x [(0 : ℚ), 2] * (([(0 : ℚ), 2].length : ℚ) - 1)))) :=
  ⟨⟨rfl, by decide, by simp [var_x_pair]⟩,
   (C1_amended [0, 2] [0, 2] rfl (by decide) (by simp [var_x_pair])).2.1⟩

lemma classify_weak {c : ℚ} (h : |c| < 3 / 10) :
    classify c = "Weak correlation" := by
  unfold classify
  rw [if_pos h]

lemma classify_moderate {c : ℚ} (h1 : 3 / 10 ≤ |c|) (h2 : |c| < 7 / 10) :
    classify c = "Moderate correlation" := by
  unfold classify
  rw [if_neg (by linarith), if_pos h2]

lemma classify_strong {c : ℚ} (h : 7 / 10 ≤ |c|) :
    classify c = "Strong correlation" := by
  unfold classify
  rw [if_neg (by linarith), if_neg (by linarith)]

/-! ## C4: strength classification bands -/

/-- C4: the strength classification maps `|c| < 0.30` to weak,
`0.30 ≤ |c| < 0.70` to moderate and `0.70 ≤ |c|` to strong; in particular
exactly 0.30 is moderate and exactly 0.70 is strong.  The last conjunct
carries the same thresholds over to the orchestrator's classifier
`strengthLabel` at any representable finite correlation `c = c·d/√(d²)`. -/
theorem C4_classification :
    (∀ c : ℚ, classify c = "Weak correlation" ↔ |c| < 3 / 10) ∧
    (∀ c : ℚ, classify c = "Moderate correlation" ↔ 3 / 10 ≤ |c| ∧ |c| < 7 / 10) ∧
    (∀ c : ℚ, classify c = "Strong correlation" ↔ 7 / 10 ≤ |c|) ∧
    classify (3 / 10) = "Moderate correlation" ∧
    classify (7 / 10) = "Strong correlation" ∧
    (∀ c d : ℚ, strengthLabel ⟨c * d, d ^ 2⟩
      = if d = 0 then "Strong correlation" else classify c) := by
  have habs : ∀ c t : ℚ, 0 < t → (|c| < t ↔ c ^ 2 < t ^ 2) := by
    intro c t ht
    constructor
    · intro h
      have h1 := abs_nonneg c
      nlinarith [sq_abs c]
    · intro h
      rw [abs_lt]
      constructor <;> nlinarith [sq_abs c, abs_nonneg c]
  have h3 : |(3 : ℚ) / 10| = 3 / 10 := abs_of_nonneg (by norm_num)
  have h7 : |(7 : ℚ) / 10| = 7 / 10 := abs_of_nonneg (by norm_num)
  refine ⟨?_, ?_, ?_, ?_, ?_, ?_⟩
  · intro c
    constructor
    · intro h
      rcases lt_or_le (|c|) (3 / 10) with h1 | h1
      · exact h1
      · rcases lt_or_le (|c|) (7 / 10) with h2 | h2
        · rw [classify_moderate h1 h2] at h
          exact absurd h (by decide)
        · rw [classify_strong h2] at h
          exact absurd h (by decide)
    · exact classify_weak
  · intro c
    constructor
    · intro h
      rcases lt_or_le (|c|) (3 / 10) with h1 | h1
      · rw [classify_weak h1] at h
        exact absurd h (by decide)
      · rcases lt_or_le (|c|) (7 / 10) with h2 | h2
        · exact ⟨h1, h2⟩
        · rw [classify_strong h2] at h
          exact absurd h (by decide)
    · intro h
      exact classify_moderate h.1 h.2
  · intro c
    constructor
    · intro h
      rcases lt_or_le (|c|) (3 / 10) with h1 | h1
      · rw [classify_weak h1] at h
        exact absurd h (by decide)
      · rcases lt_or_le (|c|) (7 / 10) with h2 | h2
        · rw [classify_moderate h1 h2] at h
          exact absurd h (by decide)
        · exact h2
    · exact classify_strong
  · exact classify_moderate (by rw [h3]) (by rw [h3]; norm_num)
  · exact classify_strong (by rw [h7])
  · intro c d
    by_cases hd : d = 0
    · subst hd
      simp [strengthLabel]
    · have hd2 : (0 : ℚ) < d ^ 2 := by positivity
      have e1 : ((c * d) ^ 2 * 100 < 9 * d ^ 2) ↔ |c| < 3 / 10 := by
        rw [habs c (3 / 10) (by norm_num)]
        constructor <;> intro h <;> nlinarith
      have e2 : ((c * d) ^ 2 * 100 < 49 * d ^ 2) ↔ |c| < 7 / 10 := by
        rw [habs c (7 / 10) (by norm_num)]
        constructor <;> intro h <;> nlinarith
      simp only [strengthLabel, classify, e1, e2, if_neg hd]

/-! ## C5: family-influence label acceptance -/

/-- C5: the family-influence field is accepted exactly for the trimmed,
case-sensitive labels Low/Medium/High, encoded 1/2/3; any other label (such as
lowercase "high") is an error, and a row carrying it is dropped from the
dataset with the parse diagnostic, while "High" is accepted and encoded 3. -/
theorem C5_family_influence :
    (∀ s : String, familyInfluenceCode s =
      (if strTrim s = "Low" then .ok 1
       else if strTrim s = "Medium" then .ok 2
       else if strTrim s = "High" then .ok 3
       else .error "Invalid Family Influence value")) ∧
    familyInfluenceCode "high" = .error "Invalid Family Influence value" ∧
    familyInfluenceCode " High " = .ok 3 ∧
    read_dataset pnLit 20 [sampleRow "high"] = .ok ([], [warnMsg 0]) ∧
    read_dataset pnLit 20 [sampleRow "High"]
      = .ok ([⟨0, 1, 1, 1, 1, 3, 1⟩], []) := by
  refine ⟨?_, by decide, by decide, by decide, by decide⟩
  intro s
  unfold familyInfluenceCode
  split <;> simp_all

/-! ## C6: empty dataset terminates successfully without analysis -/

/-- C6: when the loaded collection is empty, `main` reaches the diagnostic
branch of lines 188-191: it reports the empty-dataset notice, exits
successfully, and produces no analysis report (the regression engine and the
descriptive statistics are never invoked). -/
theorem C6_empty_dataset (pn : String → Option ℚ) (headerLen : ℕ)
    (rows : List (List String)) (warns : List String)
    (h : read_dataset pn headerLen rows = .ok ([], warns)) :
    main pn headerLen rows = .emptyNotice ∧
    (main pn headerLen rows).isSuccess = true ∧
    ∀ r : Report, main pn headerLen rows ≠ .report r := by
  unfold main
  rw [h]
  simp [MainOutcome.isSuccess]

/-- C6, witness: an empty row list loads as the empty collection. -/
theorem C6_witness :
    read_dataset pnLit 20 [] = .ok ([], []) ∧
    main pnLit 20 [] = .emptyNotice ∧
    (main pnLit 20 []).isSuccess = true :=
  ⟨by decide, (C6_empty_dataset pnLit 20 [] [] (by decide)).1,
   (C6_empty_dataset pnLit 20 [] [] (by decide)).2.1⟩

/-! ## C3: correlation bounded in the unit interval -/

/-- C3, counterexample: with X = [0,1] non-constant but Y = [5,5] constant
(n = 2, so "at least one sequence non-constant" holds), the correlation's
denominator `sqrt(r_denomx * r_denomy)` is `sqrt 0 = 0` and its numerator is
0: the f64 division yields NaN, which does not lie in [-1, 1]. -/
theorem C3_counterexample :
    ¬listConstant [(0 : ℚ), 1] ∧ listConstant [(5 : ℚ), 5] ∧
    [(0 : ℚ), 1].length = [(5 : ℚ), 5].length ∧ 2 ≤ [(0 : ℚ), 1].length ∧
    (regressionCore [(0 : ℚ), 1] [(5 : ℚ), 5]).correlation = ⟨0, 0⟩ ∧
    ¬(regressionCore [(0 : ℚ), 1] [(5 : ℚ), 5]).correlation.withinUnit := by
  have h : (regressionCore [(0 : ℚ), 1] [(5 : ℚ), 5]).correlation = ⟨0, 0⟩ := by
    simp [regressionCore, r_numerator, r_denomx, r_denomy, mean]
  refine ⟨by decide, by decide, by decide, by decide, h, ?_⟩
  rw [h]
  decide

/-- C3 (amended): for equal-length sequences with n ≥ 2 and *both* sequences
non-constant, the returned correlation is a well-defined finite value lying in
[-1, 1] (Cauchy-Schwarz); when only one sequence is non-constant the program
produces NaN instead (see the counterexample). -/
theorem C3_amended (x y : List ℚ) (hlen : x.length = y.length)
    (hn : 2 ≤ x.length) (hx : ¬listConstant x) (hy : ¬listConstant y) :
    (regressionCore x y).correlation.withinUnit := by
  have h1 : 0 < r_denomx x := r_denomx_pos hx
  have h2 : 0 < r_denomx y := r_denomx_pos hy
  constructor
  · show 0 < r_denomx x * r_denomy y
    rw [r_denomy_eq_r_denomx]
    exact mul_pos h1 h2
  · show r_numerator x y ^ 2 ≤ r_denomx x * r_denomy y
    exact r_num_sq_le x y hlen

/-- C3, witness: the amended theorem at X = [0,1], Y = [0,2]. -/
theorem C3_witness :
    ([(0 : ℚ), 1].length = [(0 : ℚ), 2].length ∧ 2 ≤ [(0 : ℚ), 1].length ∧
      ¬listConstant [(0 : ℚ), 1] ∧ ¬listConstant [(0 : ℚ), 2]) ∧
    (regressionCore [(0 : ℚ), 1] [(0 : ℚ), 2]).correlation.withinUnit :=
  ⟨⟨rfl, by decide, by decide, by decide⟩,
   C3_amended [0, 1] [0, 2] rfl (by decide) (by decide) (by decide)⟩

/-! ## C7: non-finite outcomes passed through unmasked -/

lemma mkAnalysis_spec (t : String) (x y : List ℚ) (h : x.length = y.length) :
    x.length = y.length ∧
    calculate_linear_regression x y = some (mkAnalysis t x y).result ∧
    (mkAnalysis t x y).strength
      = strengthLabel (mkAnalysis t x y).result.correlation :=
  ⟨h, by simp [calculate_linear_regression, h, mkAnalysis], rfl⟩

lemma var_x_ones : var_x [(1 : ℚ), 1] = 0 := by
  simp [var_x, mean]

/-- C7: when X is constant (`var_x = 0`) the slope and intercept divisions
yield non-finite values, and when a centered-deviation denominator vanishes
the correlation's radicand is 0 (NaN) and `r_squared` is non-finite; each
reported analysis block carries exactly the regression engine's output for
its sample pair and the classification of that same correlation — nothing is
coerced to zero, trapped, or omitted. -/
theorem C7_nonfinite_passthrough :
    (∀ x y : List ℚ, var_x x = 0 →
      (regressionCore x y).slope = none ∧ (regressionCore x y).intercept = none) ∧
    (∀ x y : List ℚ, r_denomx x * r_denomy y = 0 →
      (regressionCore x y).correlation.radicand = 0 ∧
        (regressionCore x y).r_squared = none) ∧
    (∀ inds : List Individual, ∀ a ∈ perform_correlation_analysis inds,
      ∃ x y : List ℚ, x.length = y.length ∧
        calculate_linear_regression x y = some a.result ∧
        a.strength = strengthLabel a.result.correlation) := by
  refine ⟨?_, ?_, ?_⟩
  · intro x y hv
    have hden : slopeDen x = 0 := by
      unfold slopeDen
      rw [hv]
      ring
    constructor <;> simp [regressionCore, hden]
  · intro x y hr
    exact ⟨hr, by simp [regressionCore, hr]⟩
  · intro inds a ha
    simp only [perform_correlation_analysis, List.mem_cons, List.not_mem_nil,
      or_false] at ha
    rcases ha with rfl | rfl | rfl | rfl | rfl | rfl | rfl | rfl <;>
      exact ⟨_, _, mkAnalysis_spec _ _ _ (by
        simp [ages, experiences, satisfactions, networks, influences, salaries])⟩

/-- C7, witness: X = [1,1] constant against Y = [0,1], and the head analysis
of a one-record dataset. -/
theorem C7_witness :
    (var_x [(1 : ℚ), 1] = 0 ∧
      r_denomx [(1 : ℚ), 1] * r_denomy [(0 : ℚ), 1] = 0 ∧
      mkAnalysis "Age vs Years of Experience" [(1 : ℚ)] [(1 : ℚ)]
        ∈ perform_correlation_analysis [⟨0, 1, 1, 1, 1, 3, 1⟩]) ∧
    ((regressionCore [(1 : ℚ), 1] [(0 : ℚ), 1]).slope = none ∧
      (regressionCore [(1 : ℚ), 1] [(0 : ℚ), 1]).intercept = none) ∧
    ((regressionCore [(1 : ℚ), 1] [(0 : ℚ), 1]).correlation.radicand = 0 ∧
      (regressionCore [(1 : ℚ), 1] [(0 : ℚ), 1]).r_squared = none) ∧
    (∃ x y : List ℚ, x.length = y.length ∧
      calculate_linear_regression x y
        = some (mkAnalysis "Age vs Years of Experience" [(1 : ℚ)] [(1 : ℚ)]).result ∧
      (mkAnalysis "Age vs Years of Experience" [(1 : ℚ)] [(1 : ℚ)]).strength
        = strengthLabel
            (mkAnalysis "Age vs Years of Experience" [(1 : ℚ)] [(1 : ℚ)]).result.correlation) :=
  ⟨⟨var_x_ones, by simp [r_denomx, r_denomy, mean], by
      simp only [perform_correlation_analysis, ages, experiences, List.map_cons,
        List.map_nil]
      exact List.mem_cons_self _ _⟩,
   C7_nonfinite_passthrough.1 [(1 : ℚ), 1] [(0 : ℚ), 1] var_x_ones,
   C7_nonfinite_passthrough.2.1 [(1 : ℚ), 1] [(0 : ℚ), 1]
     (by simp [r_denomx, r_denomy, mean]),
   C7_nonfinite_passthrough.2.2 [⟨0, 1, 1, 1, 1, 3, 1⟩] _ (by
      simp only [perform_correlation_analysis, ages, experiences, List.map_cons,
        List.map_nil]
      exact List.mem_cons_self _ _)⟩

/-! ## C9: invariance under uniform translation of Y -/

/-- C9: shifting every y by a constant c leaves the slope, the correlation and
r² unchanged and raises the (finite) intercept by exactly c. -/
theorem C9_translation (x y : List ℚ) (c : ℚ) (hlen : x.length = y.length)
    (hn : 2 ≤ x.length) (hx : ¬listConstant x) :
    (∃ s i, (regressionCore x y).slope = some s ∧
      (regressionCore x y).intercept = some i) ∧
    calculate_linear_regression x (y.map fun b => b + c)
      = some { regressionCore x y with
               intercept := (regressionCore x y).intercept.map fun i => i + c } := by
  have hy : y ≠ [] := by
    intro h
    have h0 : y.length = 0 := by rw [h]; rfl
    omega
  have hden : slopeDen x ≠ 0 := ne_of_gt (slopeDen_pos hn hx)
  have hlen' : x.length = (y.map fun b => b + c).length := by simpa using hlen
  have hcov := cov_xy_map_add x y c hy
  have hnum : r_numerator x (y.map fun b => b + c) = r_numerator x y := by
    rw [r_numerator_eq_cov_xy, r_numerator_eq_cov_xy, hcov]
  have hmean := mean_map_add_const y c hy
  have hry := r_denomy_map_add y c hy
  have hslope : (regressionCore x y).slope = some (cov_xy x y / slopeDen x) := by
    simp [regressionCore, hden]
  have hint : (regressionCore x y).intercept
      = some (mean y - cov_xy x y / slopeDen x * mean x) := by
    simp [regressionCore, hden]
  have lhs : regressionCore x (y.map fun b => b + c) =
      { slope := (regressionCore x y).slope
        intercept := (regressionCore x y).intercept.map fun i => i + c
        correlation := (regressionCore x y).correlation
        r_squared := (regressionCore x y).r_squared } := by
    unfold regressionCore
    simp only [hcov, hnum, hmean, hry]
    simp only [if_neg hden, Option.map_some', RegressionResult.mk.injEq]
    refine ⟨by trivial, ?_, by trivial, by trivial⟩
    congr 1
    ring
  refine ⟨⟨_, _, hslope, hint⟩, ?_⟩
  unfold calculate_linear_regression
  rw [if_pos hlen']
  exact congrArg some lhs

/-- C9, witness: the theorem at X = [0,2], Y = [1,3], c = 5. -/
theorem C9_witness :
    ([(0 : ℚ), 2].length = [(1 : ℚ), 3].length ∧ 2 ≤ [(0 : ℚ), 2].length ∧
      ¬listConstant [(0 : ℚ), 2]) ∧
    calculate_linear_regression [(0 : ℚ), 2] ([(1 : ℚ), 3].map fun b => b + 5)
      = some { regressionCore [(0 : ℚ), 2] [(1 : ℚ), 3] with
               intercept := (regressionCore [(0 : ℚ), 2] [(1 : ℚ), 3]).intercept.map
                 fun i => i + 5 } :=
  ⟨⟨rfl, by decide, by decide⟩,
   (C9_translation [0, 2] [1, 3] 5 rfl (by decide) (by decide)).2⟩

/-! ## C10: a one-record dataset is analyzed, producing NaN everywhere -/

/-- C10: `main`'s guard tests only for emptiness, so a single-record dataset
is fully analyzed: the report is produced (successful exit), all 8 catalog
analyses run on the n = 1 samples, and each reports slope, intercept,
correlation and r² as NaN — the slope is the division 0/0 (`cov_xy = 0` and
`var_x·(n−1) = 0`) and the correlation's radicand is 0. -/
theorem C10_single_record (pn : String → Option ℚ) (headerLen : ℕ)
    (rows : List (List String)) (ind : Individual) (warns : List String)
    (h : read_dataset pn headerLen rows = .ok ([ind], warns)) :
    main pn headerLen rows = .report (makeReport [ind]) ∧
    (main pn headerLen rows).isSuccess = true ∧
    (perform_correlation_analysis [ind]).length = 8 ∧
    (∀ a ∈ perform_correlation_analysis [ind],
      a.result = ⟨none, none, ⟨0, 0⟩, none⟩) ∧
    (∀ a b : ℚ, cov_xy [a] [b] = 0 ∧ slopeDen [a] = 0 ∧
      r_denomx [a] * r_denomy [b] = 0) := by
  refine ⟨?_, ?_, rfl, ?_, ?_⟩
  · unfold main
    rw [h]
    simp
  · unfold main
    rw [h]
    simp [MainOutcome.isSuccess]
  · intro a ha
    simp only [perform_correlation_analysis, List.mem_cons, List.not_mem_nil,
      or_false] at ha
    rcases ha with rfl | rfl | rfl | rfl | rfl | rfl | rfl | rfl <;>
      simp [mkAnalysis, ages, experiences, satisfactions, networks, influences,
        salaries, regressionCore_singleton]
  · intro a b
    refine ⟨?_, ?_, ?_⟩
    · simp [cov_xy, mean]
    · simp [slopeDen]
    · simp [r_denomx, r_denomy, mean]

/-- C10, witness: a one-row dataset loads as a single record and is analyzed. -/
theorem C10_witness :
    read_dataset pnLit 20 [sampleRow "High"]
      = .ok ([⟨0, 1, 1, 1, 1, 3, 1⟩], []) ∧
    main pnLit 20 [sampleRow "High"]
      = .report (makeReport [⟨0, 1, 1, 1, 1, 3, 1⟩]) ∧
    (perform_correlation_analysis [(⟨0, 1, 1, 1, 1, 3, 1⟩ : Individual)]).length = 8 :=
  ⟨by decide,
   (C10_single_record pnLit 20 [sampleRow "High"] ⟨0, 1, 1, 1, 1, 3, 1⟩ []
     (by decide)).1,
   (C10_single_record pnLit 20 [sampleRow "High"] ⟨0, 1, 1, 1, 1, 3, 1⟩ []
     (by decide)).2.2.1⟩

/-! ## C2: row-level recovery versus whole-load failure -/

lemma parseRow_isSome (pn : String → Option ℚ) (i : ℕ) {row : List String}
    {headerLen : ℕ} (hr : row.length = headerLen) (h20 : 20 ≤ headerLen) :
    ∃ o, parseRow pn i row = some o := by
  have g : ∀ k : ℕ, k < row.length → ∃ s, row.get? k = some s := fun k hk =>
    ⟨row.get ⟨k, hk⟩, List.get?_eq_get hk⟩
  obtain ⟨s14, h14⟩ := g 14 (by omega)
  obtain ⟨s2, h2⟩ := g 2 (by omega)
  obtain ⟨s4, h4⟩ := g 4 (by omega)
  obtain ⟨s7, h7⟩ := g 7 (by omega)
  obtain ⟨s19, h19⟩ := g 19 (by omega)
  obtain ⟨s10, h10⟩ := g 10 (by omega)
  unfold parseRow field
  rw [h14, h2, h4, h7, h19, h10]
  exact ⟨_, rfl⟩

lemma readRows_ok (pn : String → Option ℚ) (headerLen : ℕ) (h20 : 20 ≤ headerLen) :
    ∀ (rows : List (List String)) (i : ℕ), (∀ r ∈ rows, r.length = headerLen) →
      readRows pn headerLen i rows
        = .ok (specGoodRecords pn i rows, specWarnings pn i rows)
  | [], _, _ => rfl
  | row :: rest, i, hlen => by
    have hr : row.length = headerLen := hlen row (List.mem_cons_self _ _)
    have ih := readRows_ok pn headerLen h20 rest (i + 1)
      (fun r hrr => hlen r (List.mem_cons_of_mem _ hrr))
    obtain ⟨o, ho⟩ := parseRow_isSome pn i hr h20
    unfold readRows specGoodRecords specWarnings
    rw [if_neg (fun hne => hne hr), ho, ih]
    cases o with
    | none => rfl
    | some ind => rfl

/-- C2, counterexample: a single malformed row whose arity differs from the
header's does not get dropped — the `?` at line 20 propagates the CSV reader's
error and the whole load fails, so `main` takes the error exit. -/
theorem C2_counterexample :
    read_dataset pnLit 20 [["bad"]]
      = .error (.csvError
          "CSV error: record has a different number of fields than the header") ∧
    main pnLit 20 [["bad"]]
      = .loadError "CSV error: record has a different number of fields than the header" ∧
    (main pnLit 20 [["bad"]]).isSuccess = false := by
  decide

/-- C2 (amended): for rows that supply the expected columns (arity equal to
the header's, with at least the 20 columns the program indexes), loading never
fails: every row with an unparseable or unrecognized field is dropped with its
diagnostic and processing continues — the load returns exactly the
successfully parsed records and one warning per dropped row, in order.  A row
with a *different number of columns*, however, aborts the whole load (see the
counterexample). -/
theorem C2_amended (pn : String → Option ℚ) (headerLen : ℕ)
    (rows : List (List String)) (hlen : ∀ r ∈ rows, r.length = headerLen)
    (h20 : 20 ≤ headerLen) :
    read_dataset pn headerLen rows
      = .ok (specGoodRecords pn 0 rows, specWarnings pn 0 rows) :=
  readRows_ok pn headerLen h20 rows 0 hlen

/-- C2, witness: a dropped first row followed by a parsed second row. -/
theorem C2_witness :
    ((∀ r ∈ [sampleRow "x", sampleRow "High"], r.length = 20) ∧ 20 ≤ 20) ∧
    read_dataset pnLit 20 [sampleRow "x", sampleRow "High"]
      = .ok (specGoodRecords pnLit 0 [sampleRow "x", sampleRow "High"],
             specWarnings pnLit 0 [sampleRow "x", sampleRow "High"]) :=
  ⟨⟨by decide, by decide⟩, C2_amended pnLit 20 _ (by decide) (by decide)⟩

/-! ## C8: record identifiers -/

lemma parseRow_id {pn : String → Option ℚ} {i : ℕ} {row : List String}
    {ind : Individual} (h : parseRow pn i row = some (some ind)) : ind.id = i := by
  unfold parseRow at h
  split at h
  · injection h with h
    split at h
    · injection h with h
      rw [← h]
    · exact Option.noConfusion h
  · exact Option.noConfusion h

lemma readRows_ids (pn : String → Option ℚ) (headerLen : ℕ) :
    ∀ (rows : List (List String)) (i : ℕ) (inds : List Individual)
      (warns : List String),
      readRows pn headerLen i rows = .ok (inds, warns) →
      (∀ ind ∈ inds, i ≤ ind.id ∧ ∃ row, rows.get? (ind.id - i) = some row ∧
        parseRow pn ind.id row = some (some ind)) ∧
      List.Pairwise (fun a b : Individual => a.id < b.id) inds
  | [], i, inds, warns, h => by
    unfold readRows at h
    simp only [Except.ok.injEq, Prod.mk.injEq] at h
    obtain ⟨h1, h2⟩ := h
    subst h1
    simp
  | row :: rest, i, inds, warns, h => by
    unfold readRows at h
    by_cases hne : row.length ≠ headerLen
    · rw [if_pos hne] at h
      exact absurd h (by simp)
    · rw [if_neg hne] at h
      cases hp : parseRow pn i row with
      | none =>
        rw [hp] at h
        exact absurd h (by simp)
      | some o =>
        rw [hp] at h
        cases o with
        | none =>
          cases hrec : readRows pn headerLen (i + 1) rest with
          | error e =>
            rw [hrec] at h
            exact absurd h (by simp)
          | ok p =>
            obtain ⟨inds', warns'⟩ := p
            rw [hrec] at h
            simp only [Except.ok.injEq, Prod.mk.injEq] at h
            obtain ⟨h1, h2⟩ := h
            subst h1
            have ih := readRows_ids pn headerLen rest (i + 1) inds' warns' hrec
            refine ⟨?_, ih.2⟩
            intro ind hind
            obtain ⟨hle, row', hrow', hparse⟩ := ih.1 ind hind
            refine ⟨by omega, row', ?_, hparse⟩
            have hstep : ind.id - i = (ind.id - (i + 1)) + 1 := by omega
            rw [hstep]
            simpa using hrow'
        | some ind0 =>
          cases hrec : readRows pn headerLen (i + 1) rest with
          | error e =>
            rw [hrec] at h
            exact absurd h (by simp)
          | ok p =>
            obtain ⟨inds', warns'⟩ := p
            rw [hrec] at h
            simp only [Except.ok.injEq, Prod.mk.injEq] at h
            obtain ⟨h1, h2⟩ := h
            subst h1
            have ih := readRows_ids pn headerLen rest (i + 1) inds' warns' hrec
            have hid : ind0.id = i := parseRow_id hp
            constructor
            · intro ind hind
              rcases List.mem_cons.mp hind with rfl | hmem
              · refine ⟨by omega, row, ?_, ?_⟩
                · rw [hid]
                  simp
                · rw [hid]
                  exact hp
              · obtain ⟨hle, row', hrow', hparse⟩ := ih.1 ind hmem
                refine ⟨by omega, row', ?_, hparse⟩
                have hstep : ind.id - i = (ind.id - (i + 1)) + 1 := by omega
                rw [hstep]
                simpa using hrow'
            · rw [List.pairwise_cons]
              refine ⟨?_, ih.2⟩
              intro b hb
              have hble := (ih.1 b hb).1
              omega

/-- C8, counterexample: with the first data row unparseable and the second
valid, the single loaded record carries id 1 — the enumerate index of its
source row — not the sequential index 0 of successfully parsed rows that the
claim requires for the first record. -/
theorem C8_counterexample :
    read_dataset pnLit 20 [sampleRow "x", sampleRow "High"]
      = .ok ([⟨1, 1, 1, 1, 1, 3, 1⟩], [warnMsg 0]) ∧
    (⟨1, 1, 1, 1, 1, 3, 1⟩ : Individual).id = 1 ∧ (1 : ℕ) ≠ 0 := by
  decide

/-- C8 (amended): the identifier attached to each loaded record is the 0-based
enumerate index of its *source row* among all data rows — dropped rows leave
gaps — so ids are strictly increasing rather than consecutive, and each
record's id points back to the exact row that parsed to it. -/
theorem C8_amended (pn : String → Option ℚ) (headerLen : ℕ)
    (rows : List (List String)) (inds : List Individual) (warns : List String)
    (h : read_dataset pn headerLen rows = .ok (inds, warns)) :
    (∀ ind ∈ inds, ∃ row, rows.get? ind.id = some row ∧
      parseRow pn ind.id row = some (some ind)) ∧
    List.Pairwise (fun a b : Individual => a.id < b.id) inds := by
  have h0 := readRows_ids pn headerLen rows 0 inds warns h
  refine ⟨?_, h0.2⟩
  intro ind hind
  obtain ⟨-, row, hrow, hp⟩ := h0.1 ind hind
  exact ⟨row, by simpa using hrow, hp⟩

/-- C8, witness: the amended theorem on a load whose middle row is dropped,
yielding records with ids 0 and 2. -/
theorem C8_witness :
    read_dataset pnLit 20 [sampleRow "High", sampleRow "x", sampleRow "High"]
      = .ok ([⟨0, 1, 1, 1, 1, 3, 1⟩, ⟨2, 1, 1, 1, 1, 3, 1⟩], [warnMsg 1]) ∧
    ((∀ ind ∈ [(⟨0, 1, 1, 1, 1, 3, 1⟩ : Individual), ⟨2, 1, 1, 1, 1, 3, 1⟩],
        ∃ row,
          [sampleRow "High", sampleRow "x", sampleRow "High"].get? ind.id
            = some row ∧
          parseRow pnLit ind.id row = some (some ind)) ∧
      List.Pairwise (fun a b : Individual => a.id < b.id)
        [(⟨0, 1, 1, 1, 1, 3, 1⟩ : Individual), ⟨2, 1, 1, 1, 1, 3, 1⟩]) :=
  ⟨by decide,
   C8_amended pnLit 20 [sampleRow "High", sampleRow "x", sampleRow "High"]
     [⟨0, 1, 1, 1, 1, 3, 1⟩, ⟨2, 1, 1, 1, 1, 3, 1⟩] [warnMsg 1] (by decide)⟩

end CareerStats
